import Mathlib

/-!
Shallow embedding of the cup-warmer temperature-control and scheduler
subsystem (src/components/temp_control/pid.c, temp_control.c,
src/components/scheduler/scheduler.c). C `float` values are modelled as
rationals; machine `int` as `Int`. Stateful C functions become pure
state-transformers; the periodic control and scheduler callbacks become
tick functions taking the external inputs (sensor reading, wall-clock
time) as parameters.
-/

namespace CupWarmer

/-- Clamp in the orientation the C code writes it: the upper bound is
checked first, then the lower bound. -/
def clampHiLo (x lo hi : ℚ) : ℚ :=
  if x > hi then hi else if x < lo then lo else x

/-- `pid_controller_t` from pid.h: gains, setpoint, integral accumulator,
previous error, output bounds and the integral clamp bound. -/
structure PidController where
  kp : ℚ
  ki : ℚ
  kd : ℚ
  setpoint : ℚ
  integral : ℚ
  prev_error : ℚ
  output_min : ℚ
  output_max : ℚ
  integral_max : ℚ
deriving DecidableEq, Repr

/-- `pid_init` from pid.c: store the gains, zero the dynamic state, and
install the default bounds (output 0..100, integral clamp 50). -/
def pid_init (kp ki kd : ℚ) : PidController :=
  { kp := kp, ki := ki, kd := kd,
    setpoint := 0, integral := 0, prev_error := 0,
    output_min := 0, output_max := 100, integral_max := 50 }

/-- `pid_set_setpoint` from pid.c. -/
def pid_set_setpoint (pid : PidController) (setpoint : ℚ) : PidController :=
  { pid with setpoint := setpoint }

/-- `pid_set_output_limits` from pid.c. -/
def pid_set_output_limits (pid : PidController) (min max : ℚ) : PidController :=
  { pid with output_min := min, output_max := max }

/-- `pid_compute` from pid.c, step for step: error, P term, integral
accumulation followed by the anti-windup clamp, I term, D term with the
previous-error update, sum, output clamp. Returns the output together
with the updated controller state. -/
def pid_compute (pid : PidController) (current : ℚ) : ℚ × PidController :=
  let error := pid.setpoint - current
  let p_term := pid.kp * error
  let integral0 := pid.integral + error
  let integral :=
    if integral0 > pid.integral_max then pid.integral_max
    else if integral0 < -pid.integral_max then -pid.integral_max
    else integral0
  let i_term := pid.ki * integral
  let d_term := pid.kd * (error - pid.prev_error)
  let output0 := p_term + i_term + d_term
  let output :=
    if output0 > pid.output_max then pid.output_max
    else if output0 < pid.output_min then pid.output_min
    else output0
  (output, { pid with integral := integral, prev_error := error })

/-- `pid_reset` from pid.c: zero integral and previous error only. -/
def pid_reset (pid : PidController) : PidController :=
  { pid with integral := 0, prev_error := 0 }

/-- The PID output formula exactly as the specification describes it:
error = setpoint − current; integral accumulates the error and is clamped
to [−integral_max, integral_max]; output = kp·error + ki·integral +
kd·(error − previous_error), clamped to [output_min, output_max]. -/
def pid_compute_spec (pid : PidController) (current : ℚ) : ℚ :=
  let error := pid.setpoint - current
  let integral := clampHiLo (pid.integral + error) (-pid.integral_max) pid.integral_max
  clampHiLo (pid.kp * error + pid.ki * integral + pid.kd * (error - pid.prev_error))
    pid.output_min pid.output_max

/-- `temp_state_t` from temp_control.h. -/
inductive TempState where
  | IDLE
  | HEATING
  | KEEPING
  | ERROR
deriving DecidableEq, Repr

/-- The static state of temp_control.c: the PID controller plus the
power/target/current/heating/mode/sensor flags, together with the last
duty-cycle percentage commanded to the heater PWM (the actuator output,
already clamped to [0,100] by `set_heater_duty`). -/
structure ControlState where
  pid : PidController
  power_on : Bool
  target_temp : ℤ
  current_temp : ℚ
  is_heating : Bool
  state : TempState
  sensor_ok : Bool
  heater_duty : ℚ
deriving DecidableEq, Repr

/-- `CONFIG_TEMP_HARD_LIMIT` (95 °C). -/
def TEMP_HARD_LIMIT : ℤ := 95

/-- `CONFIG_TEMP_MIN` (30 °C). -/
def TEMP_MIN : ℤ := 30

/-- `CONFIG_TEMP_MAX` (90 °C). -/
def TEMP_MAX : ℤ := 90

/-- `set_heater_duty` from temp_control.c: clamp the percentage to
[0,100]; the model keeps the clamped percentage as the actuator output. -/
def set_heater_duty (duty_percent : ℚ) : ℚ :=
  if duty_percent < 0 then 0 else if duty_percent > 100 then 100 else duty_percent

/-- A sensor acquisition outcome, the input of one control tick:
`some t` is a reading that passed the validity checks of
`read_ntc_temperature` (ADC read succeeded and the voltage was inside
[100 mV, 3200 mV]) and converted to temperature `t`; `none` is a flagged
fault (`read_ntc_temperature` returns the −999 sentinel and clears
`s_sensor_ok`). -/
def SensorReading : Type := Option ℚ

/-- Initial static state of temp_control.c after `temp_control_init`:
power off, target 55, current 25.0, not heating, IDLE, sensor ok;
PID gains CONFIG_PID_KP/100 = 2, KI/100 = 0.1, KD/100 = 0.5, output
limits set to [0,100]. -/
def temp_control_initState : ControlState :=
  { pid := pid_set_output_limits (pid_init 2 (1/10) (1/2)) 0 100,
    power_on := false, target_temp := 55, current_temp := 25,
    is_heating := false, state := TempState.IDLE, sensor_ok := true,
    heater_duty := 0 }

/-- One iteration of `temp_control_task` from temp_control.c, with the
sensor acquisition passed in. In source order: store the reading into
`s_current_temp` only when the sensor is ok; hard-limit check
(`s_current_temp >= 95` forces power off, IDLE, heater duty 0); sensor
fault check (heater duty 0, ERROR, power untouched, PID untouched);
otherwise run the PID when powered, or shut the heater down and reset
the PID when not. -/
def temp_control_tick (s : ControlState) (reading : Option ℚ) : ControlState :=
  let sensorOk := reading.isSome
  let current :=
    match reading with
    | some t => t
    | none => s.current_temp
  let s1 := { s with sensor_ok := sensorOk, current_temp := current }
  if s1.current_temp ≥ (TEMP_HARD_LIMIT : ℚ) then
    { s1 with power_on := false, is_heating := false, state := TempState.IDLE,
              heater_duty := set_heater_duty 0 }
  else if ¬ s1.sensor_ok then
    { s1 with is_heating := false, state := TempState.ERROR,
              heater_duty := set_heater_duty 0 }
  else if s1.power_on then
    let pid1 := pid_set_setpoint s1.pid (s1.target_temp : ℚ)
    let result := pid_compute pid1 s1.current_temp
    let output := result.1
    let heating := decide (output > 5)
    { s1 with pid := result.2, heater_duty := set_heater_duty output,
              is_heating := heating,
              state := if heating then TempState.HEATING else TempState.KEEPING }
  else
    { s1 with heater_duty := set_heater_duty 0, is_heating := false,
              state := TempState.IDLE, pid := pid_reset s1.pid }

/-- `temp_control_set_power` from temp_control.c: store the flag; on
power-off also zero the heater duty and reset the PID. It does not touch
`s_state` or `s_is_heating`. -/
def temp_control_set_power (s : ControlState) (onFlag : Bool) : ControlState :=
  if onFlag then { s with power_on := true }
  else { s with power_on := false, heater_duty := set_heater_duty 0,
                pid := pid_reset s.pid }

/-- `temp_control_set_target_temp` from temp_control.c: clamp to
[TEMP_MIN, TEMP_MAX] and store. -/
def temp_control_set_target_temp (s : ControlState) (temp : ℤ) : ControlState :=
  let t := if temp < TEMP_MIN then TEMP_MIN else if temp > TEMP_MAX then TEMP_MAX else temp
  { s with target_temp := t }

/-- `temp_control_get_current_temp` from temp_control.c. -/
def temp_control_get_current_temp (s : ControlState) : ℚ := s.current_temp

/-- `temp_control_get_power` from temp_control.c. -/
def temp_control_get_power (s : ControlState) : Bool := s.power_on

/-- `scheduler_state_t` from scheduler.h. -/
inductive SchedState where
  | IDLE
  | TIMER_RUNNING
  | SCHEDULED
  | TIMEOUT
deriving DecidableEq, Repr

/-- `CONFIG_MAX_HEATING_TIME_MINUTES` (240). -/
def MAX_HEATING_TIME_MINUTES : ℤ := 240

/-- `CONFIG_PREHEAT_TIME_MINUTES` (5). -/
def PREHEAT_TIME_MINUTES : ℤ := 5

/-- Consume leading whitespace, as the `%d` conversion of `sscanf`
does before reading digits. -/
def skipSpaces : List Char → List Char
  | c :: cs => if c.isWhitespace then skipSpaces cs else c :: cs
  | [] => []

/-- Consume a maximal run of decimal digits, accumulating their value;
returns the value and the unconsumed rest. -/
def parseDigits : List Char → ℕ → ℕ × List Char
  | c :: cs, acc =>
      if c.isDigit then parseDigits cs (acc * 10 + (c.toNat - 48)) else (acc, c :: cs)
  | [], acc => (acc, [])

/-- At least one digit, as `%d` requires after the optional sign. -/
def parseUnsigned : List Char → Option (ℕ × List Char)
  | c :: cs => if c.isDigit then some (parseDigits cs (c.toNat - 48)) else none
  | [] => none

/-- An optionally signed decimal integer, the matching rule of one `%d`
conversion (after its whitespace skip). -/
def parseSignedInt (cs : List Char) : Option (ℤ × List Char) :=
  match cs with
  | '-' :: rest => (parseUnsigned rest).map (fun p => (-(p.1 : ℤ), p.2))
  | '+' :: rest => (parseUnsigned rest).map (fun p => ((p.1 : ℤ), p.2))
  | _ => (parseUnsigned cs).map (fun p => ((p.1 : ℤ), p.2))

/-- `sscanf(time_str, "%d:%d", ...)`: a signed integer (leading
whitespace skipped), the literal `:` immediately after it, then a second
signed integer (leading whitespace skipped). `some (h, m)` models a
return value of 2. -/
def scan_two_ints (cs : List Char) : Option (ℤ × ℤ) :=
  match parseSignedInt (skipSpaces cs) with
  | none => none
  | some (h, rest) =>
    match rest with
    | ':' :: rest2 =>
      match parseSignedInt (skipSpaces rest2) with
      | none => none
      | some (m, _) => some (h, m)
    | _ => none

/-- `parse_schedule_time` from scheduler.c: reject strings shorter than
5 characters, scan `"%d:%d"`, and validate 0 ≤ hour ≤ 23,
0 ≤ minute ≤ 59. -/
def parse_schedule_time (time_str : String) : Option (ℤ × ℤ) :=
  if time_str.length < 5 then none
  else
    match scan_two_ints time_str.toList with
    | none => none
    | some (h, m) =>
      if 0 ≤ h ∧ h ≤ 23 ∧ 0 ≤ m ∧ m ≤ 59 then some (h, m) else none

/-- The static state of scheduler.c. -/
structure SchedulerState where
  timer_duration : ℤ
  timer_remaining : ℤ
  timer_seconds : ℤ
  timer_running : Bool
  schedule_time : String
  schedule_active : Bool
  state : SchedState
deriving DecidableEq, Repr

/-- Initial static state of scheduler.c: duration 60 min, no countdown,
empty schedule string, not armed, IDLE. -/
def scheduler_initState : SchedulerState :=
  { timer_duration := 60, timer_remaining := 0, timer_seconds := 0,
    timer_running := false, schedule_time := "", schedule_active := false,
    state := SchedState.IDLE }

/-- The combined system the scheduler callback touches: its own state
and the control-loop state it reaches through `temp_control_get_power` /
`temp_control_set_power`. -/
structure SysState where
  ctrl : ControlState
  sched : SchedulerState
deriving DecidableEq, Repr

/-- `scheduler_timer_callback` from scheduler.c (the 1 Hz tick), with
the wall-clock reading `soft_rtc_get_time` passed in as `nowH:nowM`.
First the countdown: if the timer runs and control-loop power is on,
decrement the seconds counter; at ≤ 0 stop the timer, zero the public
remaining minutes, enter TIMEOUT, request power off and invoke the
registered timeout callback (the second component counts these
invocations); otherwise republish remaining minutes as ⌈seconds/60⌉.
Then the appointment check: if the schedule is armed and power is
currently off, parse the stored time string, subtract the preheat lead
wrapping into [0, 1440), and on exact minute equality request power on,
disarm the schedule and start the countdown at the configured
duration. -/
def scheduler_tick (sys : SysState) (nowH nowM : ℤ) : SysState × ℕ :=
  let step1 : SysState × ℕ :=
    if sys.sched.timer_running ∧ temp_control_get_power sys.ctrl then
      let secs := sys.sched.timer_seconds - 1
      if secs ≤ 0 then
        ({ ctrl := temp_control_set_power sys.ctrl false,
           sched := { sys.sched with
                      timer_seconds := secs, timer_running := false,
                      timer_remaining := 0, state := SchedState.TIMEOUT } }, 1)
      else
        ({ sys with
           sched := { sys.sched with
                      timer_seconds := secs,
                      timer_remaining := (secs + 59) / 60 } }, 0)
    else (sys, 0)
  let mid := step1.1
  let after : SysState :=
    if mid.sched.schedule_active ∧ ¬ temp_control_get_power mid.ctrl then
      match parse_schedule_time mid.sched.schedule_time with
      | some (schedHour, schedMinute) =>
        let now_minutes := nowH * 60 + nowM
        let sched_minutes := schedHour * 60 + schedMinute
        let start0 := sched_minutes - PREHEAT_TIME_MINUTES
        let start_minutes := if start0 < 0 then start0 + 24 * 60 else start0
        if now_minutes = start_minutes then
          { ctrl := temp_control_set_power mid.ctrl true,
            sched := { mid.sched with
                       schedule_active := false,
                       timer_running := true,
                       timer_seconds := mid.sched.timer_duration * 60,
                       timer_remaining := mid.sched.timer_duration,
                       state := SchedState.TIMER_RUNNING } }
        else mid
      | none => mid
    else mid
  (after, step1.2)

/-- `scheduler_set_timer_duration` from scheduler.c: clamp to
[1, MAX_HEATING_TIME_MINUTES], store; if control-loop power is on, also
restart the live countdown at the new duration. -/
def scheduler_set_timer_duration (sys : SysState) (minutes : ℤ) : SysState :=
  let m := if minutes < 1 then 1
           else if minutes > MAX_HEATING_TIME_MINUTES then MAX_HEATING_TIME_MINUTES
           else minutes
  let sched1 := { sys.sched with timer_duration := m }
  let sched2 :=
    if temp_control_get_power sys.ctrl then
      { sched1 with timer_seconds := m * 60, timer_remaining := m,
                    timer_running := true, state := SchedState.TIMER_RUNNING }
    else sched1
  { sys with sched := sched2 }

/-- Zero-pad to two digits, as the `%02d` of `snprintf` does for values
in [0, 99]. -/
def fmt2 (n : ℤ) : String :=
  if n < 10 then "0" ++ toString n else toString n

/-- `scheduler_set_schedule_time` from scheduler.c: reject (returning
with no state change) unless the string parses and validates; on
success store the reformatted `HH:MM`, arm the schedule, enter
SCHEDULED. -/
def scheduler_set_schedule_time (sched : SchedulerState) (time_str : String) :
    SchedulerState :=
  match parse_schedule_time time_str with
  | none => sched
  | some (h, m) =>
    { sched with schedule_time := fmt2 h ++ ":" ++ fmt2 m,
                 schedule_active := true, state := SchedState.SCHEDULED }

/-- `scheduler_start_timer` from scheduler.c. -/
def scheduler_start_timer (sched : SchedulerState) : SchedulerState :=
  { sched with timer_running := true,
               timer_seconds := sched.timer_duration * 60,
               timer_remaining := sched.timer_duration,
               state := SchedState.TIMER_RUNNING }

/-- `scheduler_stop_timer` from scheduler.c. -/
def scheduler_stop_timer (sched : SchedulerState) : SchedulerState :=
  let sched1 := { sched with timer_running := false, timer_seconds := 0,
                             timer_remaining := 0 }
  if sched1.state = SchedState.TIMER_RUNNING ∨ sched1.state = SchedState.TIMEOUT then
    { sched1 with state := SchedState.IDLE }
  else sched1

/-- `scheduler_cancel_schedule` from scheduler.c. -/
def scheduler_cancel_schedule (sched : SchedulerState) : SchedulerState :=
  let sched1 := { sched with schedule_active := false, schedule_time := "" }
  if sched1.state = SchedState.SCHEDULED then
    { sched1 with state := SchedState.IDLE }
  else sched1

/-- `n` consecutive scheduler ticks at a fixed wall-clock reading;
returns the final system state and the total number of timeout-callback
invocations. The `n+1` case runs `n` ticks and then one more, so
`scheduler_run sys h m (n+1) = scheduler_tick (scheduler_run sys h m n).1`. -/
def scheduler_run (sys : SysState) (nowH nowM : ℤ) : ℕ → SysState × ℕ
  | 0 => (sys, 0)
  | n + 1 =>
    let prev := scheduler_run sys nowH nowM n
    let last := scheduler_tick prev.1 nowH nowM
    (last.1, prev.2 + last.2)

/-- Claim C4: for every sequence of pid_compute calls with arbitrary
inputs (equivalently, for one call from an arbitrary prior controller
state), the integral accumulator lies within
[−integral_max, +integral_max] immediately after the call, given
integral_max ≥ 0. -/
theorem c4_integral_bounded (pid : PidController) (current : ℚ)
    (h : 0 ≤ pid.integral_max) :
    -pid.integral_max ≤ (pid_compute pid current).2.integral ∧
    (pid_compute pid current).2.integral ≤ pid.integral_max := by
  unfold pid_compute
  dsimp only
  split_ifs with h1 h2 <;> constructor <;> linarith

/-- Witness for C4: the default controller has integral_max = 50 ≥ 0,
and after one compute call at input 3 the integral is inside the band. -/
theorem c4_integral_bounded_witness :
    -(pid_init 2 (1/10) (1/2)).integral_max ≤
      (pid_compute (pid_init 2 (1/10) (1/2)) 3).2.integral ∧
    (pid_compute (pid_init 2 (1/10) (1/2)) 3).2.integral ≤
      (pid_init 2 (1/10) (1/2)).integral_max :=
  c4_integral_bounded (pid_init 2 (1/10) (1/2)) 3 (by norm_num [pid_init])

/-- Claim C5: pid_compute returns
clamp(kp·error + ki·integral2 + kd·(error − previous_error), output_min,
output_max) with error = setpoint − current and integral2 the prior
integral plus error clamped to [−integral_max, +integral_max]; given
output_min ≤ output_max the return value lies in
[output_min, output_max]; and the call updates previous_error to error
(and the integral to its clamped value), touching no other field. -/
theorem c5_pid_compute_correct (pid : PidController) (current : ℚ)
    (hout : pid.output_min ≤ pid.output_max) :
    (pid_compute pid current).1 = pid_compute_spec pid current ∧
    pid.output_min ≤ (pid_compute pid current).1 ∧
    (pid_compute pid current).1 ≤ pid.output_max ∧
    (pid_compute pid current).2 =
      { pid with
        integral := clampHiLo (pid.integral + (pid.setpoint - current))
                      (-pid.integral_max) pid.integral_max,
        prev_error := pid.setpoint - current } := by
  refine ⟨rfl, ?_, ?_, rfl⟩ <;>
  · unfold pid_compute
    dsimp only
    split_ifs <;> linarith

/-- Witness for C5: the default controller has output_min = 0 ≤ 100 =
output_max, and the conclusion holds at input 30. -/
theorem c5_pid_compute_correct_witness :
    (pid_compute (pid_init 2 (1/10) (1/2)) 30).1 =
      pid_compute_spec (pid_init 2 (1/10) (1/2)) 30 ∧
    (pid_init 2 (1/10) (1/2)).output_min ≤ (pid_compute (pid_init 2 (1/10) (1/2)) 30).1 ∧
    (pid_compute (pid_init 2 (1/10) (1/2)) 30).1 ≤ (pid_init 2 (1/10) (1/2)).output_max ∧
    (pid_compute (pid_init 2 (1/10) (1/2)) 30).2 =
      { pid_init 2 (1/10) (1/2) with
        integral := clampHiLo ((pid_init 2 (1/10) (1/2)).integral +
                      ((pid_init 2 (1/10) (1/2)).setpoint - 30))
                      (-(pid_init 2 (1/10) (1/2)).integral_max)
                      (pid_init 2 (1/10) (1/2)).integral_max,
        prev_error := (pid_init 2 (1/10) (1/2)).setpoint - 30 } :=
  c5_pid_compute_correct (pid_init 2 (1/10) (1/2)) 30 (by norm_num [pid_init])

/-- Claim C1: for every prior control state, if the temperature seen by a
control tick (the fresh reading when valid, else the retained
current_temp) is at or above HARD_LIMIT, that tick forces power_on to
false, mode to IDLE and the actuator output (and heating flag) to zero;
and the check is re-evaluated every tick, so even after a caller
re-requests power between ticks, a tick at or above the limit again
leaves the heater off. -/
theorem c1_hard_limit_shutoff (s : ControlState) (reading : Option ℚ)
    (h : (TEMP_HARD_LIMIT : ℚ) ≤ reading.getD s.current_temp) :
    ((temp_control_tick s reading).power_on = false ∧
     (temp_control_tick s reading).state = TempState.IDLE ∧
     (temp_control_tick s reading).heater_duty = 0 ∧
     (temp_control_tick s reading).is_heating = false) ∧
    ((temp_control_tick (temp_control_set_power s true) reading).power_on = false ∧
     (temp_control_tick (temp_control_set_power s true) reading).state = TempState.IDLE ∧
     (temp_control_tick (temp_control_set_power s true) reading).heater_duty = 0 ∧
     (temp_control_tick (temp_control_set_power s true) reading).is_heating = false) := by
  cases reading <;>
    simp_all [temp_control_tick, temp_control_set_power, set_heater_duty,
      Option.getD, ge_iff_le]

/-- Witness for C1: a valid reading of exactly 95 °C from the initial
state satisfies the limit hypothesis and shuts the heater down. -/
theorem c1_hard_limit_shutoff_witness :
    ((temp_control_tick temp_control_initState (some 95)).power_on = false ∧
     (temp_control_tick temp_control_initState (some 95)).state = TempState.IDLE ∧
     (temp_control_tick temp_control_initState (some 95)).heater_duty = 0 ∧
     (temp_control_tick temp_control_initState (some 95)).is_heating = false) ∧
    ((temp_control_tick (temp_control_set_power temp_control_initState true)
        (some 95)).power_on = false ∧
     (temp_control_tick (temp_control_set_power temp_control_initState true)
        (some 95)).state = TempState.IDLE ∧
     (temp_control_tick (temp_control_set_power temp_control_initState true)
        (some 95)).heater_duty = 0 ∧
     (temp_control_tick (temp_control_set_power temp_control_initState true)
        (some 95)).is_heating = false) :=
  c1_hard_limit_shutoff temp_control_initState (some 95)
    (by norm_num [TEMP_HARD_LIMIT, Option.getD])

/-- Counterexample to C2 as stated: reachable run in which a tick with an
invalid (flagged) sensor reading does not set mode to ERROR and does not
leave power_on unchanged. From startup, a valid 96 °C reading trips the
hard limit; the caller then re-requests power on; the next tick has an
invalid reading, yet because the retained current_temp (96) is at the
hard limit, the hard-limit branch preempts the sensor-fault branch: the
tick sets mode to IDLE (not ERROR) and flips power_on from true to
false. -/
theorem c2_counterexample :
    (temp_control_set_power (temp_control_tick temp_control_initState (some 96)) true).power_on
        = true ∧
    (temp_control_tick
        (temp_control_set_power (temp_control_tick temp_control_initState (some 96)) true)
        none).sensor_ok = false ∧
    (temp_control_tick
        (temp_control_set_power (temp_control_tick temp_control_initState (some 96)) true)
        none).state = TempState.IDLE ∧
    (temp_control_tick
        (temp_control_set_power (temp_control_tick temp_control_initState (some 96)) true)
        none).state ≠ TempState.ERROR ∧
    (temp_control_tick
        (temp_control_set_power (temp_control_tick temp_control_initState (some 96)) true)
        none).power_on = false := by
  decide

/-- Claim C2, amended: on every control tick with an invalid reading,
provided the retained current_temp is below HARD_LIMIT (the hard-limit
interlock takes precedence otherwise), the tick sets sensor_ok to false,
mode to ERROR and the actuator output to zero, leaves power_on, the
retained temperature and the PID state untouched (no PID compute runs);
and sensor_ok returns to true automatically on any tick with a valid
reading, with no manual reset. -/
theorem c2_sensor_fault_amended (s : ControlState)
    (h : s.current_temp < (TEMP_HARD_LIMIT : ℚ)) :
    temp_control_tick s none =
      { s with sensor_ok := false, is_heating := false,
               state := TempState.ERROR, heater_duty := 0 } ∧
    ∀ (s2 : ControlState) (v : ℚ), (temp_control_tick s2 (some v)).sensor_ok = true := by
  constructor
  · simp [temp_control_tick, set_heater_duty, not_le.mpr h]
  · intro s2 v
    unfold temp_control_tick
    dsimp only
    split_ifs <;> rfl

/-- Witness for C2 (amended): the initial state retains 25 °C < 95 °C, so
a fault tick lands in the ERROR branch; a following valid 25 °C reading
restores sensor_ok. -/
theorem c2_sensor_fault_amended_witness :
    temp_control_tick temp_control_initState none =
      { temp_control_initState with
        sensor_ok := false, is_heating := false,
        state := TempState.ERROR, heater_duty := 0 } ∧
    (temp_control_tick temp_control_initState (some 25)).sensor_ok = true :=
  ⟨(c2_sensor_fault_amended temp_control_initState
      (by norm_num [temp_control_initState, TEMP_HARD_LIMIT])).1,
   (c2_sensor_fault_amended temp_control_initState
      (by norm_num [temp_control_initState, TEMP_HARD_LIMIT])).2
     temp_control_initState 25⟩

/-- Counterexample to C3 as stated: one control tick from the startup
state with an invalid reading yields power_on = false with mode = ERROR
(not IDLE), so the stated invariant "power_on = false implies mode =
IDLE" fails in a reachable state. (The other half also fails: see the
C2 counterexample, where sensor_ok = false coexists with mode = IDLE.) -/
theorem c3_counterexample :
    (temp_control_tick temp_control_initState none).power_on = false ∧
    (temp_control_tick temp_control_initState none).state = TempState.ERROR ∧
    (temp_control_tick temp_control_initState none).state ≠ TempState.IDLE := by
  decide

/-- Claim C3, amended: in every state immediately after a control tick
(accessor calls such as temp_control_set_power do not touch mode, so the
invariant can be stale between a setter call and the next tick): if
sensor_ok is false and the retained temperature is below HARD_LIMIT then
mode is ERROR, and if power_on is false while sensor_ok is true then
mode is IDLE. -/
theorem c3_invariant_amended (s : ControlState) (reading : Option ℚ) :
    ((temp_control_tick s reading).sensor_ok = false →
      (temp_control_tick s reading).current_temp < (TEMP_HARD_LIMIT : ℚ) →
      (temp_control_tick s reading).state = TempState.ERROR) ∧
    ((temp_control_tick s reading).power_on = false →
      (temp_control_tick s reading).sensor_ok = true →
      (temp_control_tick s reading).state = TempState.IDLE) := by
  cases reading <;>
    · unfold temp_control_tick
      dsimp only
      split_ifs <;> constructor <;> intro ha hb <;> simp_all [TEMP_HARD_LIMIT] <;>
        linarith

/-- Witness for C3 (amended): a fault tick from startup satisfies the
first implication and yields ERROR; a valid powered-off tick satisfies
the second and yields IDLE. -/
theorem c3_invariant_amended_witness :
    (temp_control_tick temp_control_initState none).state = TempState.ERROR ∧
    (temp_control_tick temp_control_initState (some 25)).state = TempState.IDLE :=
  ⟨(c3_invariant_amended temp_control_initState none).1 (by decide) (by decide),
   (c3_invariant_amended temp_control_initState (some 25)).2 (by decide) (by decide)⟩

/-- Claim C10: an invalid-reading tick leaves current_temp unchanged at
the last retained value (so temp_control_get_current_temp returns that
retained value during a fault), a valid-reading tick stores the fresh
reading, and the hard-limit comparison on a faulted tick is evaluated
against the retained value (mode becomes IDLE exactly when the retained
value is at or above the limit, ERROR otherwise). Consequently
current_temp never holds the −999 fault sentinel once it does not hold
it: the −999 returned by read_ntc_temperature on a fault is discarded,
and a valid NTC conversion (voltage in [100 mV, 3200 mV], hence a
positive Kelvin temperature above −273.15 °C) can never equal −999,
which the hypothesis on the valid reading records. -/
theorem c10_retained_last_good (s : ControlState) (v : ℚ)
    (hs : s.current_temp ≠ -999) (hv : v ≠ -999) :
    (temp_control_tick s none).current_temp = s.current_temp ∧
    temp_control_get_current_temp (temp_control_tick s none) = s.current_temp ∧
    (temp_control_tick s (some v)).current_temp = v ∧
    (temp_control_tick s none).current_temp ≠ -999 ∧
    (temp_control_tick s (some v)).current_temp ≠ -999 ∧
    (temp_control_tick s none).state =
      (if (TEMP_HARD_LIMIT : ℚ) ≤ s.current_temp then TempState.IDLE
       else TempState.ERROR) := by
  have h1 : (temp_control_tick s none).current_temp = s.current_temp := by
    unfold temp_control_tick
    dsimp only
    split_ifs <;> rfl
  have h2 : (temp_control_tick s (some v)).current_temp = v := by
    unfold temp_control_tick
    dsimp only
    split_ifs <;> rfl
  refine ⟨h1, h1, h2, by rw [h1]; exact hs, by rw [h2]; exact hv, ?_⟩
  unfold temp_control_tick
  dsimp only
  split_ifs with hA hB <;> simp_all [ge_iff_le]

/-- Witness for C10: from the initial state (retained 25 °C ≠ −999) with
a valid reading of 30 °C ≠ −999. -/
theorem c10_retained_last_good_witness :
    (temp_control_tick temp_control_initState none).current_temp =
      temp_control_initState.current_temp ∧
    temp_control_get_current_temp (temp_control_tick temp_control_initState none) =
      temp_control_initState.current_temp ∧
    (temp_control_tick temp_control_initState (some 30)).current_temp = 30 ∧
    (temp_control_tick temp_control_initState none).current_temp ≠ -999 ∧
    (temp_control_tick temp_control_initState (some 30)).current_temp ≠ -999 ∧
    (temp_control_tick temp_control_initState none).state =
      (if (TEMP_HARD_LIMIT : ℚ) ≤ temp_control_initState.current_temp then TempState.IDLE
       else TempState.ERROR) :=
  c10_retained_last_good temp_control_initState 30
    (by norm_num [temp_control_initState]) (by norm_num)

/-- Claim C9: every input string that does not parse and validate as a
time with 0 ≤ HH ≤ 23 and 0 ≤ MM ≤ 59 is rejected by
scheduler_set_schedule_time, and the entire scheduler state — stored
schedule_time, active flag and mode — is exactly what it was before the
call. -/
theorem c9_invalid_schedule_rejected (sched : SchedulerState) (time_str : String)
    (h : parse_schedule_time time_str = none) :
    scheduler_set_schedule_time sched time_str = sched := by
  unfold scheduler_set_schedule_time
  rw [h]

/-- Witness for C9: the two inputs named by the specification, "25:99"
(out-of-range fields) and "abc" (not a time at all), leave the initial
scheduler state untouched. -/
theorem c9_invalid_schedule_rejected_witness :
    scheduler_set_schedule_time scheduler_initState "25:99" = scheduler_initState ∧
    scheduler_set_schedule_time scheduler_initState "abc" = scheduler_initState :=
  ⟨c9_invalid_schedule_rejected scheduler_initState "25:99" (by decide),
   c9_invalid_schedule_rejected scheduler_initState "abc" (by decide)⟩

/-- Counterexample to C7 as stated: a scheduler tick taken while
timer_running is true and control-loop power is off can change the
countdown. With the schedule armed at "00:05" (preheat 5 ⇒ start 00:00)
and the clock at 00:00, the appointment check — which runs precisely
because power is off — triggers and restarts the countdown: the internal
seconds counter jumps from 30 to 3600. -/
theorem c7_counterexample :
    ({ ctrl := temp_control_initState,
       sched := { timer_duration := 60, timer_remaining := 1, timer_seconds := 30,
                  timer_running := true, schedule_time := "00:05",
                  schedule_active := true, state := SchedState.TIMER_RUNNING } }
      : SysState).ctrl.power_on = false ∧
    (scheduler_tick
      { ctrl := temp_control_initState,
        sched := { timer_duration := 60, timer_remaining := 1, timer_seconds := 30,
                   timer_running := true, schedule_time := "00:05",
                   schedule_active := true, state := SchedState.TIMER_RUNNING } }
      0 0).1.sched.timer_seconds = 3600 := by
  decide

/-- Claim C7, amended: a scheduler tick taken while timer_running is true
and control-loop power is off leaves the whole system state unchanged
(in particular timer_remaining_seconds, timer_remaining_minutes,
timer_running and the scheduler state) and invokes no callback —
provided the appointment check does not trigger on that same tick (armed
schedule whose preheat-adjusted start minute equals the current minute);
a triggering appointment restarts the countdown instead. -/
theorem c7_paused_amended (sys : SysState) (nowH nowM : ℤ)
    (hrun : sys.sched.timer_running = true)
    (hoff : sys.ctrl.power_on = false)
    (hnotrig : ∀ schedH schedM : ℤ,
      sys.sched.schedule_active = true →
      parse_schedule_time sys.sched.schedule_time = some (schedH, schedM) →
      nowH * 60 + nowM ≠
        (if schedH * 60 + schedM - PREHEAT_TIME_MINUTES < 0
         then schedH * 60 + schedM - PREHEAT_TIME_MINUTES + 24 * 60
         else schedH * 60 + schedM - PREHEAT_TIME_MINUTES)) :
    scheduler_tick sys nowH nowM = (sys, 0) := by
  by_cases hact : sys.sched.schedule_active = true
  · rcases hp : parse_schedule_time sys.sched.schedule_time with _ | ⟨schedH, schedM⟩
    · simp [scheduler_tick, temp_control_get_power, hoff, hrun, hp, hact]
    · have hne := hnotrig schedH schedM hact hp
      simp only [PREHEAT_TIME_MINUTES] at hne
      by_cases hneg : schedH * 60 + schedM - 5 < 0
      · rw [if_pos hneg] at hne
        simp [scheduler_tick, temp_control_get_power, hoff, hrun, hp, hact, hneg, hne]
        intro heq
        simp only [PREHEAT_TIME_MINUTES] at heq
        rw [if_pos (by omega)] at heq
        exfalso
        omega
      · rw [if_neg hneg] at hne
        simp [scheduler_tick, temp_control_get_power, hoff, hrun, hp, hact, hneg, hne]
        intro heq
        simp only [PREHEAT_TIME_MINUTES] at heq
        rw [if_neg (by omega)] at heq
        exfalso
        omega
  · simp [scheduler_tick, temp_control_get_power, hoff, hrun, hact]

/-- Witness for C7 (amended): mid-countdown (30 s left) with power off
and no schedule armed, a tick at 00:00 changes nothing and fires no
callback. -/
theorem c7_paused_amended_witness :
    scheduler_tick
      { ctrl := temp_control_initState,
        sched := { timer_duration := 60, timer_remaining := 1, timer_seconds := 30,
                   timer_running := true, schedule_time := "",
                   schedule_active := false, state := SchedState.TIMER_RUNNING } }
      0 0 =
    ({ ctrl := temp_control_initState,
       sched := { timer_duration := 60, timer_remaining := 1, timer_seconds := 30,
                  timer_running := true, schedule_time := "",
                  schedule_active := false, state := SchedState.TIMER_RUNNING } }, 0) :=
  c7_paused_amended _ 0 0 rfl rfl
    (by intro schedH schedM hact hp; exact absurd hact (by decide))

/-- Claim C8: with a parsable stored schedule (hour schedH, minute
schedM) and no countdown running, the appointment check acts only on
ticks where the schedule is armed and control-loop power is off; the
start minute is schedH·60+schedM − PREHEAT_TIME_MINUTES wrapped into
[0, 1440) on underflow; the trigger fires only on exact equality with
the current minute, and on the trigger tick it requests power on,
disarms the schedule (one-shot), starts the countdown at the configured
duration and enters TIMER_RUNNING; on every other tick the state is
untouched. -/
theorem c8_appointment (sys : SysState) (schedH schedM nowH nowM : ℤ)
    (hp : parse_schedule_time sys.sched.schedule_time = some (schedH, schedM))
    (hrun : sys.sched.timer_running = false) :
    (sys.sched.schedule_active = true → sys.ctrl.power_on = false →
      nowH * 60 + nowM =
        (if schedH * 60 + schedM - PREHEAT_TIME_MINUTES < 0
         then schedH * 60 + schedM - PREHEAT_TIME_MINUTES + 24 * 60
         else schedH * 60 + schedM - PREHEAT_TIME_MINUTES) →
      scheduler_tick sys nowH nowM =
        ({ ctrl := temp_control_set_power sys.ctrl true,
           sched := { sys.sched with
                      schedule_active := false, timer_running := true,
                      timer_seconds := sys.sched.timer_duration * 60,
                      timer_remaining := sys.sched.timer_duration,
                      state := SchedState.TIMER_RUNNING } }, 0)) ∧
    (sys.sched.schedule_active = false ∨ sys.ctrl.power_on = true →
      scheduler_tick sys nowH nowM = (sys, 0)) ∧
    (nowH * 60 + nowM ≠
        (if schedH * 60 + schedM - PREHEAT_TIME_MINUTES < 0
         then schedH * 60 + schedM - PREHEAT_TIME_MINUTES + 24 * 60
         else schedH * 60 + schedM - PREHEAT_TIME_MINUTES) →
      scheduler_tick sys nowH nowM = (sys, 0)) := by
  refine ⟨?_, ?_, ?_⟩
  · intro hact hoff heq
    simp only [PREHEAT_TIME_MINUTES] at heq
    by_cases hneg : schedH * 60 + schedM - 5 < 0
    · rw [if_pos hneg] at heq
      simp [scheduler_tick, temp_control_get_power, hoff, hrun, hp, hact, hneg, heq,
        PREHEAT_TIME_MINUTES]
    · rw [if_neg hneg] at heq
      simp [scheduler_tick, temp_control_get_power, hoff, hrun, hp, hact, hneg, heq,
        PREHEAT_TIME_MINUTES]
  · intro hcase
    rcases hcase with hact | hon
    · simp [scheduler_tick, temp_control_get_power, hrun, hact]
    · simp [scheduler_tick, temp_control_get_power, hrun, hon]
  · intro hne
    simp only [PREHEAT_TIME_MINUTES] at hne
    by_cases hact : sys.sched.schedule_active = true
    · by_cases hoff : sys.ctrl.power_on = false
      · by_cases hneg : schedH * 60 + schedM - 5 < 0
        · rw [if_pos hneg] at hne
          simp [scheduler_tick, temp_control_get_power, hoff, hrun, hp, hact, hneg, hne]
          intro heq
          simp only [PREHEAT_TIME_MINUTES] at heq
          rw [if_pos (by omega)] at heq
          exfalso
          omega
        · rw [if_neg hneg] at hne
          simp [scheduler_tick, temp_control_get_power, hoff, hrun, hp, hact, hneg, hne]
          intro heq
          simp only [PREHEAT_TIME_MINUTES] at heq
          rw [if_neg (by omega)] at heq
          exfalso
          omega
      · have hon : sys.ctrl.power_on = true := by
          cases hb : sys.ctrl.power_on
          · exact absurd hb hoff
          · rfl
        simp [scheduler_tick, temp_control_get_power, hrun, hon]
    · have hact2 : sys.sched.schedule_active = false := by
        cases hb : sys.sched.schedule_active
        · rfl
        · exact absurd hb hact
      simp [scheduler_tick, temp_control_get_power, hrun, hact2]

/-- Witness for C8: the midnight-wraparound case of the specification.
Schedule "00:02" with preheat 5 gives start minute 2 − 5 = −3, wrapped to
1437 = 23:57: at 23:57 the trigger fires (power on, schedule disarmed,
countdown started at the 60-minute duration, TIMER_RUNNING); at 23:58,
one minute later, nothing happens. -/
theorem c8_appointment_witness :
    scheduler_tick
      { ctrl := temp_control_initState,
        sched := { timer_duration := 60, timer_remaining := 0, timer_seconds := 0,
                   timer_running := false, schedule_time := "00:02",
                   schedule_active := true, state := SchedState.SCHEDULED } }
      23 57 =
    ({ ctrl := temp_control_set_power temp_control_initState true,
       sched := { timer_duration := 60, timer_remaining := 60, timer_seconds := 3600,
                  timer_running := true, schedule_time := "00:02",
                  schedule_active := false, state := SchedState.TIMER_RUNNING } }, 0) ∧
    scheduler_tick
      { ctrl := temp_control_initState,
        sched := { timer_duration := 60, timer_remaining := 0, timer_seconds := 0,
                   timer_running := false, schedule_time := "00:02",
                   schedule_active := true, state := SchedState.SCHEDULED } }
      23 58 =
    ({ ctrl := temp_control_initState,
       sched := { timer_duration := 60, timer_remaining := 0, timer_seconds := 0,
                  timer_running := false, schedule_time := "00:02",
                  schedule_active := true, state := SchedState.SCHEDULED } }, 0) :=
  ⟨(c8_appointment _ 0 2 23 57 (by decide) rfl).1 rfl rfl (by decide),
   (c8_appointment _ 0 2 23 58 (by decide) rfl).2.2 (by decide)⟩

/-- One non-final countdown tick: with power on, no armed schedule and
2 ≤ seconds ≤ 61, a tick decrements the seconds counter, republishes
remaining minutes as 1 and changes nothing else. -/
lemma c6_tick_step (ctrl : ControlState) (tstr : String) (dur secs : ℤ)
    (hpow : ctrl.power_on = true) (h2 : 2 ≤ secs) (h61 : secs ≤ 61)
    (nowH nowM : ℤ) :
    scheduler_tick
      { ctrl := ctrl,
        sched := { timer_duration := dur, timer_remaining := 1, timer_seconds := secs,
                   timer_running := true, schedule_time := tstr,
                   schedule_active := false, state := SchedState.TIMER_RUNNING } }
      nowH nowM =
    ({ ctrl := ctrl,
       sched := { timer_duration := dur, timer_remaining := 1, timer_seconds := secs - 1,
                  timer_running := true, schedule_time := tstr,
                  schedule_active := false, state := SchedState.TIMER_RUNNING } }, 0) := by
  have hne : ¬ (secs - 1 ≤ 0) := by omega
  have hdiv : (secs - 1 + 59) / 60 = 1 := by omega
  simp [scheduler_tick, temp_control_get_power, hpow, hne, hdiv]

/-- The expiry tick: with power on, no armed schedule and 1 second left,
a tick stops the timer, zeroes the published remaining minutes, enters
TIMEOUT, requests control-loop power off and invokes the timeout
callback once. -/
lemma c6_tick_expire (ctrl : ControlState) (tstr : String) (dur : ℤ)
    (hpow : ctrl.power_on = true) (nowH nowM : ℤ) :
    scheduler_tick
      { ctrl := ctrl,
        sched := { timer_duration := dur, timer_remaining := 1, timer_seconds := 1,
                   timer_running := true, schedule_time := tstr,
                   schedule_active := false, state := SchedState.TIMER_RUNNING } }
      nowH nowM =
    ({ ctrl := temp_control_set_power ctrl false,
       sched := { timer_duration := dur, timer_remaining := 0, timer_seconds := 0,
                  timer_running := false, schedule_time := tstr,
                  schedule_active := false, state := SchedState.TIMEOUT } }, 1) := by
  simp [scheduler_tick, temp_control_get_power, hpow, temp_control_set_power]

/-- The first k ≤ 59 ticks of a 60-second countdown with power held on:
the seconds counter goes down to 60 − k, remaining minutes stay at 1,
the state stays TIMER_RUNNING and no callback fires. -/
lemma c6_run_prefix (ctrl : ControlState) (tstr : String) (dur : ℤ)
    (hpow : ctrl.power_on = true) (nowH nowM : ℤ) :
    ∀ k : ℕ, k ≤ 59 →
      scheduler_run
        { ctrl := ctrl,
          sched := { timer_duration := dur, timer_remaining := 1, timer_seconds := 60,
                     timer_running := true, schedule_time := tstr,
                     schedule_active := false, state := SchedState.TIMER_RUNNING } }
        nowH nowM k =
      ({ ctrl := ctrl,
         sched := { timer_duration := dur, timer_remaining := 1,
                    timer_seconds := 60 - (k : ℤ),
                    timer_running := true, schedule_time := tstr,
                    schedule_active := false, state := SchedState.TIMER_RUNNING } }, 0) := by
  intro k
  induction k with
  | zero =>
    intro _
    simp [scheduler_run]
  | succ n ih =>
    intro hn
    have hle : n ≤ 59 := by omega
    rw [scheduler_run, ih hle]
    rw [c6_tick_step ctrl tstr dur (60 - (n : ℤ)) hpow (by omega) (by omega) nowH nowM]
    have hcast : ((n + 1 : ℕ) : ℤ) = (n : ℤ) + 1 := by push_cast; ring
    rw [hcast, ← sub_sub]
    simp

/-- Claim C6: starting a 1-minute timer while control-loop power is on
(modelled by scheduler_set_timer_duration 1, which restarts the live
countdown because power is on) and holding power on, with no armed
schedule: after 59 of the 1 Hz ticks the countdown is still running in
TIMER_RUNNING with no callback fired; on the 60th tick it expires —
timer_running becomes false, remaining becomes 0, the state becomes
TIMEOUT, control-loop power is requested off on that tick, and the
registered timeout callback has been invoked exactly once over the 60
ticks. -/
theorem c6_countdown_expiry (sys : SysState) (nowH nowM : ℤ)
    (hpow : sys.ctrl.power_on = true)
    (hact : sys.sched.schedule_active = false) :
    ((scheduler_run (scheduler_set_timer_duration sys 1) nowH nowM 59).1.sched.timer_running
        = true ∧
     (scheduler_run (scheduler_set_timer_duration sys 1) nowH nowM 59).1.sched.state =
       SchedState.TIMER_RUNNING ∧
     (scheduler_run (scheduler_set_timer_duration sys 1) nowH nowM 59).2 = 0) ∧
    ((scheduler_run (scheduler_set_timer_duration sys 1) nowH nowM 60).1.sched.timer_running
        = false ∧
     (scheduler_run (scheduler_set_timer_duration sys 1) nowH nowM 60).1.sched.timer_remaining
        = 0 ∧
     (scheduler_run (scheduler_set_timer_duration sys 1) nowH nowM 60).1.sched.state =
       SchedState.TIMEOUT ∧
     (scheduler_run (scheduler_set_timer_duration sys 1) nowH nowM 60).1.ctrl.power_on
        = false ∧
     (scheduler_run (scheduler_set_timer_duration sys 1) nowH nowM 60).2 = 1) := by
  have hsys : scheduler_set_timer_duration sys 1 =
      { ctrl := sys.ctrl,
        sched := { timer_duration := 1, timer_remaining := 1, timer_seconds := 60,
                   timer_running := true, schedule_time := sys.sched.schedule_time,
                   schedule_active := false, state := SchedState.TIMER_RUNNING } } := by
    simp [scheduler_set_timer_duration, temp_control_get_power,
      MAX_HEATING_TIME_MINUTES, hpow, hact]
  have h59 := c6_run_prefix sys.ctrl sys.sched.schedule_time 1 hpow nowH nowM 59 (by omega)
  have e59 : scheduler_run (scheduler_set_timer_duration sys 1) nowH nowM 59 =
      ({ ctrl := sys.ctrl,
         sched := { timer_duration := 1, timer_remaining := 1, timer_seconds := 1,
                    timer_running := true, schedule_time := sys.sched.schedule_time,
                    schedule_active := false, state := SchedState.TIMER_RUNNING } }, 0) := by
    rw [hsys, h59]
    norm_num
  have e60 : scheduler_run (scheduler_set_timer_duration sys 1) nowH nowM 60 =
      ({ ctrl := temp_control_set_power sys.ctrl false,
         sched := { timer_duration := 1, timer_remaining := 0, timer_seconds := 0,
                    timer_running := false, schedule_time := sys.sched.schedule_time,
                    schedule_active := false, state := SchedState.TIMEOUT } }, 1) := by
    rw [show (60 : ℕ) = 59 + 1 from rfl, scheduler_run, e59]
    simp only
    rw [c6_tick_expire sys.ctrl sys.sched.schedule_time 1 hpow nowH nowM]
    simp
  rw [e59, e60]
  simp [temp_control_set_power, set_heater_duty]

/-- Witness for C6: from the initial control state with power switched
on and the initial (unarmed) scheduler state, at a fixed clock reading
of 12:00. -/
theorem c6_countdown_expiry_witness :
    ((scheduler_run
        (scheduler_set_timer_duration
          { ctrl := temp_control_set_power temp_control_initState true,
            sched := scheduler_initState } 1) 12 0 59).1.sched.timer_running = true ∧
     (scheduler_run
        (scheduler_set_timer_duration
          { ctrl := temp_control_set_power temp_control_initState true,
            sched := scheduler_initState } 1) 12 0 59).1.sched.state =
       SchedState.TIMER_RUNNING ∧
     (scheduler_run
        (scheduler_set_timer_duration
          { ctrl := temp_control_set_power temp_control_initState true,
            sched := scheduler_initState } 1) 12 0 59).2 = 0) ∧
    ((scheduler_run
        (scheduler_set_timer_duration
          { ctrl := temp_control_set_power temp_control_initState true,
            sched := scheduler_initState } 1) 12 0 60).1.sched.timer_running = false ∧
     (scheduler_run
        (scheduler_set_timer_duration
          { ctrl := temp_control_set_power temp_control_initState true,
            sched := scheduler_initState } 1) 12 0 60).1.sched.timer_remaining = 0 ∧
     (scheduler_run
        (scheduler_set_timer_duration
          { ctrl := temp_control_set_power temp_control_initState true,
            sched := scheduler_initState } 1) 12 0 60).1.sched.state =
       SchedState.TIMEOUT ∧
     (scheduler_run
        (scheduler_set_timer_duration
          { ctrl := temp_control_set_power temp_control_initState true,
            sched := scheduler_initState } 1) 12 0 60).1.ctrl.power_on = false ∧
     (scheduler_run
        (scheduler_set_timer_duration
          { ctrl := temp_control_set_power temp_control_initState true,
            sched := scheduler_initState } 1) 12 0 60).2 = 1) :=
  c6_countdown_expiry
    { ctrl := temp_control_set_power temp_control_initState true,
      sched := scheduler_initState } 12 0 (by decide) (by decide)

end CupWarmer
